import Mathlib

/-!
Verification development for `mander.py`, a supervisor that manages a Blender
rendering job: it relaunches Blender after crashes, resuming from the first
unrendered frame found on disk, and classifies Blender's output lines into
rate-limited status events.

The Python source is shallowly embedded as pure Lean functions:
* filesystem directories become `Option (List String)` (`none` models a path
  that is not a directory, `some files` models the regular files inside);
* the external Blender process becomes explicit data (`Attempt` carries the
  exit code of one launch and the post-attempt contents of the output
  directory; `get_scene_frames` takes the introspection run's exit code and
  captured stdout lines);
* wall-clock readings of `time.time()` become explicit integer timestamps
  passed to each call;
* Python exceptions become `Option`/`Except` (`none` / `Except.error` marks a
  raised exception).
-/

namespace Mander

/-- Leading and trailing whitespace removal, as performed by Python `int(s)`
before parsing the literal. -/
def stripChars (l : List Char) : List Char :=
  ((l.dropWhile Char.isWhitespace).reverse.dropWhile Char.isWhitespace).reverse

/-- Digit-string accumulator for the Python `int` literal grammar: ASCII
digits, with single underscores allowed between digits. -/
def pyDigitsGo : List Char → Nat → Option Nat
  | [], acc => some acc
  | c :: cs, acc =>
    if c.isDigit then pyDigitsGo cs (acc * 10 + (c.toNat - 48))
    else if c = '_' then
      match cs with
      | c2 :: cs2 => if c2.isDigit then pyDigitsGo cs2 (acc * 10 + (c2.toNat - 48)) else none
      | [] => none
    else none

/-- Value of a nonempty digit string (first character must be a digit). -/
def pyDigitsVal : List Char → Option Nat
  | [] => none
  | c :: cs => if c.isDigit then pyDigitsGo cs (c.toNat - 48) else none

/-- Model of Python `int(s)` on a string: strip surrounding whitespace, allow
one optional sign, then a nonempty digit string (ASCII digits; underscores
between digits). Returns `none` where Python raises `ValueError`. -/
def pyInt (s : String) : Option Int :=
  match stripChars s.data with
  | '+' :: rest => (pyDigitsVal rest).map (fun n => (n : Int))
  | '-' :: rest => (pyDigitsVal rest).map (fun n => -(n : Int))
  | t => (pyDigitsVal t).map (fun n => (n : Int))

/-- Model of Python `f.rsplit(".", maxsplit=1)[0]`: everything before the last
dot, or the whole string when it has no dot. -/
def rsplitStem (l : List Char) : List Char :=
  match l.reverse.dropWhile (fun c => c ≠ '.') with
  | [] => l
  | _ :: rest => rest.reverse

/-- Worker for Python `str.split(sep)` with nonempty separator `s0 :: srest`:
leftmost non-overlapping occurrences. The fuel argument is instantiated with
the length of the input, which always suffices because every step consumes at
least one character. -/
def splitOnAux (s0 : Char) (srest : List Char) : Nat → List Char → List Char → List (List Char)
  | 0, l, acc => [acc.reverse ++ l]
  | _ + 1, [], acc => [acc.reverse]
  | fuel + 1, c :: cs, acc =>
    if (s0 :: srest).isPrefixOf (c :: cs) then
      acc.reverse :: splitOnAux s0 srest fuel (cs.drop srest.length) []
    else
      splitOnAux s0 srest fuel cs (c :: acc)

/-- Model of Python `l.split(sep)` for a nonempty separator (the source only
splits on the fixed marker strings, which are nonempty). -/
def pySplit (l sep : String) : List String :=
  match sep.data with
  | [] => [l]
  | s0 :: srest => (splitOnAux s0 srest l.data.length l.data []).map String.mk

/-- Model of `line.split(marker)[1]` as used on marker lines in
`get_scene_frames` (the index is always in range there because the marker is
a prefix of the line, so the split has at least two fields). -/
def markerValue (marker l : String) : String := (pySplit l marker).getD 1 ""

/-- Model of Python `line.startswith(p)`. -/
def strStartsWith (line p : String) : Bool := p.data.isPrefixOf line.data

/-- The single-quote character, written by code point to keep it out of
string literals. -/
def squote : Char := Char.ofNat 39

/-- Model of `get_frame_numbers_in_dir` (mander.py lines 119-125). The
directory is `none` when `os.path.isdir` is false (result `[]`), otherwise
`some filenames` listing the regular files directly inside. Each filename's
stem (text before the last dot) is parsed with `int`; a stem that is not a
valid integer makes the Python list comprehension raise `ValueError`,
modelled as result `none`. -/
def get_frame_numbers_in_dir (dir : Option (List String)) : Option (List Int) :=
  match dir with
  | none => some []
  | some filenames => filenames.mapM (fun f => pyInt (String.mk (rsplitStem f.data)))

/-- The `BlenderCmd` dataclass (mander.py lines 30-36). -/
structure BlenderCmd where
  project_file_path : String
  frame_output_path : String
  start_frame : Int
  end_frame : Int
  animate : Bool
deriving DecidableEq

/-- The `command_line` property (mander.py lines 38-46): base invocation in
background mode on the project file, start/end frame parameters, render
output path, and the `-a` animate flag when requested. `str` applied to the
path fields is the identity (they are already strings); `str` on the frame
numbers is `toString` on `Int`. -/
def BlenderCmd.command_line (c : BlenderCmd) : List String :=
  (["blender", "-b", c.project_file_path]
    ++ ["--frame-start", toString c.start_frame]
    ++ ["--frame-end", toString c.end_frame]
    ++ ["--render-output", c.frame_output_path])
  ++ (if c.animate then ["-a"] else [])

/-- Outcome of `get_scene_frames`: a successfully parsed frame pair, the
handled error path that logs a diagnostic and calls `exit(1)` (reached via
`CalledProcessError` or `KeyError`), or an uncaught `ValueError` escaping the
function (raised by `int` on a non-integer marker value, which the `except`
clause does not list). -/
inductive SceneFramesResult
  | ok (start_frame end_frame : Int)
  | exitOne
  | uncaughtValueError
deriving DecidableEq

/-- The marker-scanning loop of `get_scene_frames` (mander.py lines 103-107),
threading the current `start_frame`/`end_frame` accumulator values through
the lines. A marker line whose value does not parse as an integer raises
`ValueError` (`Except.error ()`). Later marker lines overwrite earlier
ones. -/
def parseFrameLines : List String → Option Int → Option Int → Except Unit (Option Int × Option Int)
  | [], s, e => Except.ok (s, e)
  | l :: rest, s, e =>
    if strStartsWith l "start_frame=" then
      match pyInt (markerValue "start_frame=" l) with
      | some v => parseFrameLines rest (some v) e
      | none => Except.error ()
    else if strStartsWith l "end_frame=" then
      match pyInt (markerValue "end_frame=" l) with
      | some v => parseFrameLines rest s (some v)
      | none => Except.error ()
    else parseFrameLines rest s e

/-- Model of `get_scene_frames` (mander.py lines 92-116) over the
introspection subprocess's exit code and captured stdout lines.
`subprocess.run(..., check=True)` raises `CalledProcessError` on a non-zero
exit (caught: diagnostic and `exit(1)`); a `None` left in the accumulator
raises `KeyError` (caught the same way); `int` on a bad marker value raises
`ValueError`, which is not in the `except` tuple and escapes. -/
def get_scene_frames (exitCode : Int) (stdoutLines : List String) : SceneFramesResult :=
  if exitCode ≠ 0 then SceneFramesResult.exitOne
  else
    match parseFrameLines stdoutLines none none with
    | Except.error () => SceneFramesResult.uncaughtValueError
    | Except.ok (some s, some e) => SceneFramesResult.ok s e
    | Except.ok _ => SceneFramesResult.exitOne

/-- A line handled by the `start_frame=` branch of the scanning loop. -/
def isStartLine (l : String) : Bool := strStartsWith l "start_frame="

/-- A line handled by the `end_frame=` branch of the scanning loop (the
`elif` only sees lines that did not take the first branch). -/
def isEndLine (l : String) : Bool := !strStartsWith l "start_frame=" && strStartsWith l "end_frame="

/-- A marker line whose value part fails integer parsing, i.e. a line at
which the scanning loop raises `ValueError`. -/
def badMarkerLine (l : String) : Bool :=
  (isStartLine l && (pyInt (markerValue "start_frame=" l)).isNone)
  || (isEndLine l && (pyInt (markerValue "end_frame=" l)).isNone)

/-- Model of `re.match(saved_expr, line)` for the pattern matching a line of
shape `Saved: <quote>...<quote>` (mander.py line 135): after the fixed
8-character prefix, the greedy group is everything up to the last quote of
the line and must be nonempty. Returns group 1, or `none` when the regex
does not match. -/
def matchSaved (line : String) : Option String :=
  if ("Saved: ".data ++ [squote]).isPrefixOf line.data then
    match (line.data.drop 8).reverse.dropWhile (fun c => c ≠ squote) with
    | [] => none
    | _ :: g => if g = [] then none else some (String.mk g.reverse)
  else none

/-- Maximal run of ASCII digits at the head of the input, with the rest. -/
def takeDigits : List Char → List Char × List Char
  | [] => ([], [])
  | c :: cs =>
    if c.isDigit then
      match takeDigits cs with
      | (d, r) => (c :: d, r)
    else ([], c :: cs)

/-- Matcher for the regex fragment `digits dot digits` (both runs
nonempty). Maximal munch is faithful here because each digit run is followed
by a non-digit literal in the pattern. -/
def parseDotTail (cs : List Char) : Option (List Char × List Char) :=
  match takeDigits cs with
  | ([], _) => none
  | (d1, r1) =>
    match r1 with
    | '.' :: r2 =>
      match takeDigits r2 with
      | ([], _) => none
      | (d2, r3) => some (d1 ++ '.' :: d2, r3)
    | _ => none

/-- Matcher for the regex fragment `digits colon digits dot digits`. -/
def parseTimeTail (cs : List Char) : Option (List Char × List Char) :=
  match takeDigits cs with
  | ([], _) => none
  | (d1, r1) =>
    match r1 with
    | ':' :: r2 => (parseDotTail r2).map (fun p => (d1 ++ ':' :: p.1, p.2))
    | _ => none

/-- Matcher for the duration group of `time_expr` (mander.py line 136):
`digits, optional colon, digits, colon, digits, dot, digits` with Python's
leftmost-greedy backtracking. After the leading digit run the pattern can
only continue with a colon; the two remaining alternatives (optional colon
taken or the leading run split before its last digit) are mutually
exclusive, so they are tried in greedy order without further
backtracking. -/
def parseTimeCore (cs : List Char) : Option (List Char × List Char) :=
  match takeDigits cs with
  | ([], _) => none
  | (d, rest) =>
    match rest with
    | ':' :: rs =>
      match parseTimeTail rs with
      | some (m, r) => some (d ++ ':' :: m, r)
      | none =>
        if 2 ≤ d.length then (parseDotTail rs).map (fun p => (d ++ ':' :: p.1, p.2))
        else none
    | _ => none

/-- Literal matcher: consume the given characters from the head of the
input. -/
def dropLit : List Char → List Char → Option (List Char)
  | [], cs => some cs
  | _ :: _, [] => none
  | p :: ps, c :: cs => if c = p then dropLit ps cs else none

/-- Model of `re.match(time_expr, line)` (mander.py line 136): the literal
`Time: `, the first duration group, the literal ` (Saving: `, the second
duration group and a closing parenthesis; trailing text is ignored. Returns
group 1, or `none` when the regex does not match. -/
def matchTime (line : String) : Option String :=
  match dropLit "Time: ".data line.data with
  | none => none
  | some r0 =>
    match parseTimeCore r0 with
    | none => none
    | some (g1, r1) =>
      match dropLit " (Saving: ".data r1 with
      | none => none
      | some r2 =>
        match parseTimeCore r2 with
        | none => none
        | some (_, r3) =>
          match r3 with
          | ')' :: _ => some (String.mk g1)
          | _ => none

/-- The value stored into `saved_filename` by the `Saved:` branch
(mander.py lines 148-152): regex group 1, or the placeholder built in the
`except` clause when group extraction fails. -/
def savedNameOf (line : String) : String :=
  match matchSaved line with
  | some p => p
  | none => "Unrecognized Saved File Path: " ++ line

/-- The value stored into `render_time` by the `Time:` branch (mander.py
lines 158-162): regex group 1, or the placeholder built in the `except`
clause when group extraction fails. -/
def renderTimeOf (line : String) : String :=
  match matchTime line with
  | some t => t
  | none => "Unrecognized Render Time: " ++ line

/-- User-facing output of the line interpreter: a surfaced raw progress line
(the `print(line)` at mander.py line 155), or the composite per-frame
summary printing the cached saved path and the parsed render time
(mander.py line 165). In the summary, a `none` saved path prints as the
Python `None`. -/
inductive InterpEvent
  | heartbeat (line : String)
  | frameSummary (saved_filename : Option String) (render_time : String)
deriving DecidableEq

/-- State of `BlenderLineInterpreter` (mander.py lines 134-143):
`status_msg_freq` and the timestamp of the last surfaced report, plus the
cached `saved_filename` and `render_time` (both `None` initially). -/
structure BlenderLineInterpreter where
  status_msg_freq : Int
  last_report_time : Int
  saved_filename : Option String
  render_time : Option String
deriving DecidableEq

/-- The constructor `BlenderLineInterpreter.__init__` (default frequency 30),
with `now` modelling the `time.time()` call that initializes
`last_report_time`. -/
def BlenderLineInterpreter.init (status_message_frequency now : Int) : BlenderLineInterpreter :=
  { status_msg_freq := status_message_frequency, last_report_time := now,
    saved_filename := none, render_time := none }

/-- The `summarize` method (mander.py lines 145-166), with `now` modelling
the `time.time()` readings taken while handling this line (each branch reads
the clock at most once). Branches, in order: a `Saved:` line caches the
extracted path; a `Fra:` line is surfaced as a heartbeat only when more than
`status_msg_freq` has elapsed since the last report, and then resets the
report clock; a `Time:` line caches the parsed duration, emits the composite
summary of the cached path and duration, and resets the report clock. All
other lines only hit the debug log (no event, no state change). -/
def BlenderLineInterpreter.summarize (w : BlenderLineInterpreter) (line : String) (now : Int) :
    BlenderLineInterpreter × List InterpEvent :=
  if strStartsWith line "Saved:" then
    ({ w with saved_filename := some (savedNameOf line) }, [])
  else if strStartsWith line "Fra:" ∧ w.status_msg_freq < now - w.last_report_time then
    ({ w with last_report_time := now }, [InterpEvent.heartbeat line])
  else if strStartsWith line "Time:" then
    ({ w with render_time := some (renderTimeOf line), last_report_time := now },
      [InterpEvent.frameSummary w.saved_filename (renderTimeOf line)])
  else (w, [])

/-- Feeding a sequence of timestamped lines through `summarize`, collecting
the emitted events in order (this is the per-attempt output pumping loop of
`run`, mander.py lines 65-71, restricted to the interpreter's behaviour). -/
def runLines (w : BlenderLineInterpreter) :
    List (String × Int) → BlenderLineInterpreter × List InterpEvent
  | [] => (w, [])
  | (line, t) :: rest =>
    ((runLines (w.summarize line t).1 rest).1,
      (w.summarize line t).2 ++ (runLines (w.summarize line t).1 rest).2)

/-- Number of heartbeat events in an event list. -/
def countHeartbeats (evs : List InterpEvent) : Nat :=
  (evs.filter fun e => match e with | InterpEvent.heartbeat _ => true | _ => false).length

/-- One supervised launch of the external process, as the supervisor observes
it: the process's final exit code and the frame numbers scanned from the
output directory after the attempt (the scans at mander.py lines 73 and 78
both see this post-attempt state; nothing writes between them). -/
structure Attempt where
  exitCode : Int
  framesAfter : List Int
deriving DecidableEq

/-- The local state of `run` (mander.py lines 49-83): the mutable
`BlenderCmd`, the latest exit code (`None` before the first attempt), the
latest scan result, and the retry counter. -/
structure RunState where
  cmd : BlenderCmd
  exit_code : Option Int
  frames_rendered : List Int
  num_retries : Nat
deriving DecidableEq

/-- The error-level log record emitted on a failed attempt (mander.py lines
80-81): return code, the frame the failure is attributed to, and the number
of retries left. -/
inductive RunLog
  | retryError (returncode : Int) (failed_at_frame : Int) (retries_left : Int)
deriving DecidableEq

/-- Model of `max(frames_rendered) if frames_rendered else 0` (mander.py
lines 55 and 79). -/
def lastFrameOf (frames : List Int) : Int :=
  match frames with
  | [] => 0
  | f :: fs => fs.foldl max f

/-- The `while` guard of `run` (mander.py line 60): continue while the exit
code is not in `[0, 1]` (true for the initial `None`), the end frame has not
appeared in the scan result, and the retry budget is not exhausted. -/
def loopCond (max_retries : Nat) (s : RunState) : Bool :=
  decide (s.exit_code ∉ [some 0, some 1] ∧ s.cmd.end_frame ∉ s.frames_rendered
    ∧ s.num_retries < max_retries)

/-- One iteration of the `while` body of `run` (mander.py lines 61-83) given
the attempt's observed outcome: record the exit code and the post-attempt
scan; on a non-zero exit, bump the retry counter, log the failure, and, when
retries remain, advance `start_frame` to one past the highest scanned frame
(default 0). The interpreter pumping is covered separately by
`runLines`. -/
def runBody (max_retries : Nat) (s : RunState) (a : Attempt) : RunState × List RunLog :=
  if a.exitCode ≠ 0 then
    ( if s.num_retries + 1 < max_retries then
        { cmd := { s.cmd with start_frame := lastFrameOf a.framesAfter + 1 },
          exit_code := some a.exitCode,
          frames_rendered := a.framesAfter,
          num_retries := s.num_retries + 1 }
      else
        { s with exit_code := some a.exitCode,
                 frames_rendered := a.framesAfter,
                 num_retries := s.num_retries + 1 },
      [RunLog.retryError a.exitCode (lastFrameOf a.framesAfter)
        ((max_retries : Int) - ((s.num_retries : Int) + 1))] )
  else
    ({ s with exit_code := some a.exitCode, frames_rendered := a.framesAfter }, [])

/-- The initialization of `run` before the loop (mander.py lines 52-58):
`exit_code = None`, `num_retries = 0`; in resume mode the output directory is
scanned (`dirFrames` is that scan's result) and `start_frame` is set to one
past the highest scanned frame (default 0), otherwise `frames_rendered`
starts empty. -/
def runInit (cmd : BlenderCmd) (resume : Bool) (dirFrames : List Int) : RunState :=
  if resume then
    { cmd := { cmd with start_frame := lastFrameOf dirFrames + 1 },
      exit_code := none, frames_rendered := dirFrames, num_retries := 0 }
  else
    { cmd := cmd, exit_code := none, frames_rendered := [], num_retries := 0 }

/-- The `while` loop of `run` driven by a trace of attempt outcomes: while
the guard holds, consume the next attempt with `runBody`; once the guard
fails the state is final and no further process is launched. -/
def runLoop (max_retries : Nat) (s : RunState) : List Attempt → RunState
  | [] => s
  | a :: rest =>
    if loopCond max_retries s then runLoop max_retries (runBody max_retries s a).1 rest else s

/-- Fixture: a job for a project with discovered frame range 1 to 10. -/
def cmd0 : BlenderCmd :=
  { project_file_path := "proj.blend", frame_output_path := "out", start_frame := 1,
    end_frame := 10, animate := true }

/-- Fixture: a job whose discovered range starts above 1. -/
def cmd5 : BlenderCmd :=
  { project_file_path := "proj.blend", frame_output_path := "out", start_frame := 5,
    end_frame := 10, animate := true }

/-- Fixture: a fresh-run initial supervisor state for `cmd0`. -/
def st0 : RunState := runInit cmd0 false []

/-- Fixture: a Blender save line for frame 7. -/
def savedLine : String := "Saved: " ++ String.mk [squote] ++ "/x/0007.png" ++ String.mk [squote]

/-- Fixture: a Blender per-frame timing line. -/
def timeLine1 : String := "Time: 00:01:23.45 (Saving: 00:00:01.00)"

/-- Fixture: a second Blender per-frame timing line. -/
def timeLine2 : String := "Time: 00:02:00.00 (Saving: 00:00:01.00)"

/-- Two patterns with different first characters cannot both be prefixes of
the same line. -/
theorem startsWith_disjoint (l p q : String) (c d : Char) (ps qs : List Char)
    (hp : p.data = c :: ps) (hq : q.data = d :: qs) (hcd : c ≠ d)
    (h : strStartsWith l p = true) : strStartsWith l q = false := by
  unfold strStartsWith at h ⊢
  rw [hp] at h
  rw [hq]
  cases hl : l.data with
  | nil => rw [hl] at h; simp [List.isPrefixOf] at h
  | cons a as =>
    rw [hl] at h
    simp only [List.isPrefixOf, Bool.and_eq_true, beq_iff_eq] at h
    simp only [List.isPrefixOf, Bool.and_eq_false_iff, beq_eq_false_iff_ne, ne_eq]
    exact Or.inl (fun hda => hcd (h.1 ▸ hda ▸ rfl))

/-- A `Fra:` line is not a `Saved:` line. -/
theorem fra_not_saved (l : String) (h : strStartsWith l "Fra:" = true) :
    strStartsWith l "Saved:" = false :=
  startsWith_disjoint l "Fra:" "Saved:" 'F' 'S' "ra:".data "aved:".data rfl rfl (by decide) h

/-- A `Fra:` line is not a `Time:` line. -/
theorem fra_not_time (l : String) (h : strStartsWith l "Fra:" = true) :
    strStartsWith l "Time:" = false :=
  startsWith_disjoint l "Fra:" "Time:" 'F' 'T' "ra:".data "ime:".data rfl rfl (by decide) h

/-- A `Time:` line is not a `Saved:` line. -/
theorem time_not_saved (l : String) (h : strStartsWith l "Time:" = true) :
    strStartsWith l "Saved:" = false :=
  startsWith_disjoint l "Time:" "Saved:" 'T' 'S' "ime:".data "aved:".data rfl rfl (by decide) h

/-- A `Time:` line is not a `Fra:` line. -/
theorem time_not_fra (l : String) (h : strStartsWith l "Time:" = true) :
    strStartsWith l "Fra:" = false :=
  startsWith_disjoint l "Time:" "Fra:" 'T' 'F' "ime:".data "ra:".data rfl rfl (by decide) h

/-- Evaluation of `summarize` on a timing line: cache the parsed duration,
emit the composite summary with the previously cached saved path, reset the
report clock; the cached path itself is left untouched. -/
theorem summarize_time (w : BlenderLineInterpreter) (line : String) (now : Int)
    (h : strStartsWith line "Time:" = true) :
    w.summarize line now =
      ({ w with render_time := some (renderTimeOf line), last_report_time := now },
        [InterpEvent.frameSummary w.saved_filename (renderTimeOf line)]) := by
  unfold BlenderLineInterpreter.summarize
  simp [time_not_saved line h, time_not_fra line h, h]

/-- Evaluation of `summarize` on a progress line arriving within the
suppression window: no event, no state change. -/
theorem summarize_fra_suppressed (w : BlenderLineInterpreter) (line : String) (now : Int)
    (h : strStartsWith line "Fra:" = true) (hle : now - w.last_report_time ≤ w.status_msg_freq) :
    w.summarize line now = (w, []) := by
  unfold BlenderLineInterpreter.summarize
  simp [fra_not_saved line h, fra_not_time line h, h, not_lt.mpr hle]

/-- Evaluation of `summarize` on a progress line arriving after the
suppression window has elapsed: surface the heartbeat and reset the report
clock. -/
theorem summarize_fra_fired (w : BlenderLineInterpreter) (line : String) (now : Int)
    (h : strStartsWith line "Fra:" = true) (hgt : w.status_msg_freq < now - w.last_report_time) :
    w.summarize line now = ({ w with last_report_time := now }, [InterpEvent.heartbeat line]) := by
  unfold BlenderLineInterpreter.summarize
  simp [fra_not_saved line h, h, hgt]

/-- After an iteration of the retry loop's body, the recorded exit code is
the attempt's exit code. -/
theorem runBody_exit_code (max_retries : Nat) (s : RunState) (a : Attempt) :
    (runBody max_retries s a).1.exit_code = some a.exitCode := by
  unfold runBody
  by_cases h : a.exitCode ≠ 0
  · rw [if_pos h]
    by_cases h2 : s.num_retries + 1 < max_retries
    · rw [if_pos h2]
    · rw [if_neg h2]
  · rw [if_neg h]

/-- After an iteration of the retry loop's body, the retry counter has been
bumped exactly when the attempt's exit code was non-zero. -/
theorem runBody_num_retries (max_retries : Nat) (s : RunState) (a : Attempt) :
    (runBody max_retries s a).1.num_retries =
      if a.exitCode ≠ 0 then s.num_retries + 1 else s.num_retries := by
  unfold runBody
  by_cases h : a.exitCode ≠ 0
  · rw [if_pos h, if_pos h]
    by_cases h2 : s.num_retries + 1 < max_retries
    · rw [if_pos h2]
    · rw [if_neg h2]
  · rw [if_neg h, if_neg h]

/-- C1 counterexample: after one attempt with exit code 0 whose scan is
missing the final unit 10, the loop guard is already false, so the loop
stops (further attempts leave the state unchanged), while the exit code is
acceptable, the final unit is absent and the retry budget (10) is not
exhausted — refuting the claim that the loop does not stop in that
situation. -/
theorem C1_counterexample :
    loopCond 10 (runBody 10 st0 { exitCode := 0, framesAfter := [1, 2, 3] }).1 = false ∧
    (runBody 10 st0 { exitCode := 0, framesAfter := [1, 2, 3] }).1.exit_code = some 0 ∧
    (runBody 10 st0 { exitCode := 0, framesAfter := [1, 2, 3] }).1.cmd.end_frame ∉
      (runBody 10 st0 { exitCode := 0, framesAfter := [1, 2, 3] }).1.frames_rendered ∧
    (runBody 10 st0 { exitCode := 0, framesAfter := [1, 2, 3] }).1.num_retries < 10 ∧
    runLoop 10 (runBody 10 st0 { exitCode := 0, framesAfter := [1, 2, 3] }).1
        [{ exitCode := 2, framesAfter := [4] }] =
      (runBody 10 st0 { exitCode := 0, framesAfter := [1, 2, 3] }).1 := by
  decide

/-- C1 (amended): the supervised-retry loop terminates exactly when the last
exit code is 0 or 1, OR the final unit is present in the scanned
completed-unit set, OR the attempt count has reached `max_retries` — the
three stop conditions are a disjunction, not the claimed conjunction of
acceptability with final-unit presence. -/
theorem C1_loop_termination (max_retries : Nat) (s : RunState) :
    (∀ attempts, runLoop max_retries s attempts = s) ↔
      (s.exit_code = some 0 ∨ s.exit_code = some 1 ∨ s.cmd.end_frame ∈ s.frames_rendered
        ∨ max_retries ≤ s.num_retries) := by
  constructor
  · intro h
    by_contra hc
    push_neg at hc
    obtain ⟨h0, h1, h2, h3⟩ := hc
    have hcond : loopCond max_retries s = true := by
      simp only [loopCond, decide_eq_true_eq]
      refine ⟨?_, h2, by omega⟩
      simp [h0, h1]
    have heq := h [{ exitCode := 2, framesAfter := s.frames_rendered }]
    simp only [runLoop, hcond, if_true] at heq
    have hnum := congrArg RunState.num_retries heq
    rw [runBody_num_retries] at hnum
    simp at hnum
  · intro hstop attempts
    have hcf : loopCond max_retries s = false := by
      simp only [loopCond, decide_eq_false_iff_not]
      intro hx
      obtain ⟨hx1, hx2, hx3⟩ := hx
      simp at hx1
      rcases hstop with h | h | h | h
      · exact hx1.1 h
      · exact hx1.2 h
      · exact hx2 h
      · omega
    cases attempts with
    | nil => rfl
    | cons a rest => simp [runLoop, hcf]

/-- C2 counterexample: resuming a job whose discovered range starts at 5
with an output directory scan that returns the empty set sets `start_frame`
to 1, strictly below its previous value — the `start` field does
decrease. -/
theorem C2_counterexample :
    (runInit cmd5 true []).cmd.start_frame < cmd5.start_frame := by decide

/-- C2 (amended): each adjustment (resume-time initialization and the
post-failure update) sets `start` to `max(scanned units, default 0) + 1`;
this never decreases `start` provided the scan's maximum is at least
`start - 1`, but when the scan returns the empty set and the job's range
starts above 1, the new value 1 is strictly below the previous `start`. -/
theorem C2_start_adjustment (cmd : BlenderCmd) (frames : List Int) (max_retries : Nat)
    (s : RunState) (a : Attempt)
    (h1 : cmd.start_frame ≤ lastFrameOf frames + 1)
    (h2 : s.cmd.start_frame ≤ lastFrameOf a.framesAfter + 1) :
    cmd.start_frame ≤ (runInit cmd true frames).cmd.start_frame ∧
    s.cmd.start_frame ≤ (runBody max_retries s a).1.cmd.start_frame := by
  constructor
  · simpa [runInit] using h1
  · unfold runBody
    by_cases ha : a.exitCode ≠ 0
    · rw [if_pos ha]
      by_cases hm : s.num_retries + 1 < max_retries
      · rw [if_pos hm]; exact h2
      · rw [if_neg hm]
    · rw [if_neg ha]

/-- C2 witness: the monotonicity theorem applied at a resume scan `{1, 2}`
for a range starting at 1, and a failed attempt whose scan `{1}` is at least
`start - 1`. -/
theorem C2_witness :
    cmd0.start_frame ≤ lastFrameOf [1, 2] + 1 ∧
    st0.cmd.start_frame ≤ lastFrameOf [1] + 1 ∧
    cmd0.start_frame ≤ (runInit cmd0 true [1, 2]).cmd.start_frame ∧
    st0.cmd.start_frame ≤ (runBody 10 st0 { exitCode := 2, framesAfter := [1] }).1.cmd.start_frame := by
  have h := C2_start_adjustment cmd0 [1, 2] 10 st0 { exitCode := 2, framesAfter := [1] }
    (by decide) (by decide)
  exact ⟨by decide, by decide, h.1, h.2⟩

/-- C3: whenever a further attempt is about to be launched (the loop guard
still holds after a failed attempt), its start unit is
`max(scanned completed units, default 0) + 1`, and the resume-mode
initialization sets the first attempt's start the same way. -/
theorem C3_next_start (cmd : BlenderCmd) (frames : List Int) (max_retries : Nat)
    (s : RunState) (a : Attempt)
    (h : loopCond max_retries (runBody max_retries s a).1 = true) :
    (runInit cmd true frames).cmd.start_frame = lastFrameOf frames + 1 ∧
    (runBody max_retries s a).1.cmd.start_frame = lastFrameOf a.framesAfter + 1 := by
  refine ⟨by simp [runInit], ?_⟩
  have he := runBody_exit_code max_retries s a
  have hn := runBody_num_retries max_retries s a
  simp only [loopCond, decide_eq_true_eq] at h
  obtain ⟨hex, _, hlt⟩ := h
  rw [he] at hex
  simp at hex
  have ha : a.exitCode ≠ 0 := hex.1
  rw [hn, if_pos ha] at hlt
  unfold runBody
  rw [if_pos ha, if_pos hlt]

/-- C3 witness: a failed attempt (exit code 2) with scan `{1, 2, 3}` of the
range `[1, 10]` leads to a relaunch starting at 4, and resume mode over a
directory containing `{1..5}` starts the first attempt at 6. -/
theorem C3_witness :
    loopCond 10 (runBody 10 st0 { exitCode := 2, framesAfter := [1, 2, 3] }).1 = true ∧
    (runInit cmd0 true [1, 2, 3, 4, 5]).cmd.start_frame = 6 ∧
    (runBody 10 st0 { exitCode := 2, framesAfter := [1, 2, 3] }).1.cmd.start_frame = 4 := by
  have h := C3_next_start cmd0 [1, 2, 3, 4, 5] 10 st0
    { exitCode := 2, framesAfter := [1, 2, 3] } (by decide)
  refine ⟨by decide, ?_, ?_⟩
  · rw [h.1]; decide
  · rw [h.2]; decide

/-- C9: `command_line` is a pure function of the current field values with
the fixed shape: background-mode invocation on the project file, start and
end frame parameters, the render output path, and the animate flag exactly
when `animate` is set; changing only `start_frame` yields the same sequence
with only the start-frame argument (position 4) replaced. -/
theorem C9_command_line (c : BlenderCmd) (n : Int) :
    c.command_line
      = ["blender", "-b", c.project_file_path, "--frame-start", toString c.start_frame,
         "--frame-end", toString c.end_frame, "--render-output", c.frame_output_path]
        ++ (if c.animate then ["-a"] else []) ∧
    ({ c with start_frame := n } : BlenderCmd).command_line
      = ["blender", "-b", c.project_file_path, "--frame-start", toString n,
         "--frame-end", toString c.end_frame, "--render-output", c.frame_output_path]
        ++ (if c.animate then ["-a"] else []) := by
  constructor <;> simp [BlenderCmd.command_line]

/-- C10: an attempt exiting with code exactly 1 is terminal but counted as a
failure: the loop guard is false afterwards (no relaunch, since 1 is in the
stop set with 0), yet the retry counter is bumped, the recorded exit code is
1, and the failing-frame error record is logged. -/
theorem C10_exit_code_one_terminal_failure (max_retries : Nat) (s : RunState) (a : Attempt)
    (h : a.exitCode = 1) :
    loopCond max_retries (runBody max_retries s a).1 = false ∧
    (runBody max_retries s a).1.num_retries = s.num_retries + 1 ∧
    (runBody max_retries s a).1.exit_code = some 1 ∧
    (runBody max_retries s a).2 =
      [RunLog.retryError 1 (lastFrameOf a.framesAfter)
        ((max_retries : Int) - ((s.num_retries : Int) + 1))] := by
  have he := runBody_exit_code max_retries s a
  rw [h] at he
  have ha : a.exitCode ≠ 0 := by rw [h]; decide
  refine ⟨?_, ?_, he, ?_⟩
  · simp [loopCond, he]
  · rw [runBody_num_retries, if_pos ha]
  · unfold runBody
    rw [if_pos ha, h]

/-- C10 witness: the theorem applied to a first attempt of the `[1, 10]` job
exiting with code 1 after rendering frames `{1, 2}`: the loop stops, one
failure is counted, and the failure at frame 2 is logged with 9 retries
left. -/
theorem C10_witness :
    loopCond 10 (runBody 10 st0 { exitCode := 1, framesAfter := [1, 2] }).1 = false ∧
    (runBody 10 st0 { exitCode := 1, framesAfter := [1, 2] }).1.num_retries = 1 ∧
    (runBody 10 st0 { exitCode := 1, framesAfter := [1, 2] }).1.exit_code = some 1 ∧
    (runBody 10 st0 { exitCode := 1, framesAfter := [1, 2] }).2 =
      [RunLog.retryError 1 2 9] := by
  have h := C10_exit_code_one_terminal_failure 10 st0 { exitCode := 1, framesAfter := [1, 2] } rfl
  refine ⟨h.1, ?_, h.2.2.1, ?_⟩
  · rw [h.2.1]; decide
  · rw [h.2.2.2]; decide

/-- C6 counterexample: after one save line and its timing line are flushed,
a second timing line with no new save line in between emits a summary that
reuses the previously flushed path `/x/0007.png` — the `saved_filename` slot
is not cleared by the flush. -/
theorem C6_counterexample :
    (runLines (BlenderLineInterpreter.init 30 0)
        [(savedLine, 10), (timeLine1, 20), (timeLine2, 80)]).2 =
      [InterpEvent.frameSummary (some "/x/0007.png") "00:01:23.45",
       InterpEvent.frameSummary (some "/x/0007.png") "00:02:00.00"] := by
  decide

/-- C6 (amended): processing a timing line flushes the composite summary
built from the cached `saved_filename` but leaves that slot unchanged (it is
never cleared), so a later timing line not preceded by a new save line
reuses the previously flushed path. -/
theorem C6_flush_keeps_path (w : BlenderLineInterpreter) (line : String) (now : Int)
    (h : strStartsWith line "Time:" = true) :
    (w.summarize line now).1.saved_filename = w.saved_filename ∧
    (w.summarize line now).2 = [InterpEvent.frameSummary w.saved_filename (renderTimeOf line)] := by
  rw [summarize_time w line now h]
  exact ⟨rfl, rfl⟩

/-- C6 witness: the amended theorem applied to an interpreter that has
cached `/x/0007.png`, fed the fixture timing line. -/
theorem C6_witness :
    strStartsWith timeLine1 "Time:" = true ∧
    (BlenderLineInterpreter.summarize ⟨30, 0, some "/x/0007.png", none⟩ timeLine1 20).1.saved_filename
      = some "/x/0007.png" ∧
    (BlenderLineInterpreter.summarize ⟨30, 0, some "/x/0007.png", none⟩ timeLine1 20).2
      = [InterpEvent.frameSummary (some "/x/0007.png") "00:01:23.45"] := by
  have h := C6_flush_keeps_path ⟨30, 0, some "/x/0007.png", none⟩ timeLine1 20 (by decide)
  refine ⟨by decide, h.1, ?_⟩
  rw [h.2]; decide

/-- C7 counterexample: with the heartbeat interval at 30, a timing line at
time 100 followed by a progress line at time 101 yields only the summary
event — the heartbeat right after the unit boundary is suppressed; without
the timing line the same progress line at 101 would have been surfaced. The
reset therefore guarantees suppression, not the claimed non-suppression. -/
theorem C7_counterexample :
    (runLines (BlenderLineInterpreter.init 30 0) [(timeLine1, 100), ("Fra:2 Mem", 101)]).2 =
      [InterpEvent.frameSummary none "00:01:23.45"] ∧
    (runLines (BlenderLineInterpreter.init 30 0) [("Fra:2 Mem", 101)]).2 =
      [InterpEvent.heartbeat "Fra:2 Mem"] := by
  decide

/-- C7 (amended): a timing line always resets the heartbeat clock to the
current time, regardless of how recently a heartbeat was surfaced; as a
consequence a progress line arriving within the minimum interval after the
unit boundary is suppressed (it produces no event). -/
theorem C7_time_resets_clock (w : BlenderLineInterpreter) (line hb : String) (t t2 : Int)
    (hline : strStartsWith line "Time:" = true)
    (hhb : strStartsWith hb "Fra:" = true)
    (hclose : t2 - t ≤ w.status_msg_freq) :
    (w.summarize line t).1.last_report_time = t ∧
    ((w.summarize line t).1.summarize hb t2).2 = [] := by
  rw [summarize_time w line t hline]
  refine ⟨rfl, ?_⟩
  rw [summarize_fra_suppressed _ hb t2 hhb (by simpa using hclose)]

/-- C7 witness: the amended theorem applied to a fresh interpreter, the
fixture timing line at time 100 and a progress line at time 101. -/
theorem C7_witness :
    strStartsWith timeLine1 "Time:" = true ∧
    strStartsWith "Fra:2 Mem" "Fra:" = true ∧
    (101 : Int) - 100 ≤ (BlenderLineInterpreter.init 30 0).status_msg_freq ∧
    ((BlenderLineInterpreter.init 30 0).summarize timeLine1 100).1.last_report_time = 100 ∧
    (((BlenderLineInterpreter.init 30 0).summarize timeLine1 100).1.summarize "Fra:2 Mem" 101).2
      = [] := by
  have h := C7_time_resets_clock (BlenderLineInterpreter.init 30 0) timeLine1 "Fra:2 Mem" 100 101
    (by decide) (by decide) (by decide)
  exact ⟨by decide, by decide, by decide, h.1, h.2⟩

/-- Feeding a run of progress lines that all arrive within the suppression
window leaves the interpreter unchanged and emits nothing. -/
theorem runLines_all_suppressed (lines : List (String × Int)) (w : BlenderLineInterpreter)
    (h : ∀ p ∈ lines, strStartsWith p.1 "Fra:" = true ∧
      p.2 - w.last_report_time ≤ w.status_msg_freq) :
    runLines w lines = (w, []) := by
  induction lines with
  | nil => rfl
  | cons p rest ih =>
    obtain ⟨l, t⟩ := p
    have hp := h (l, t) (by simp)
    simp only [runLines]
    rw [summarize_fra_suppressed w l t hp.1 hp.2]
    simp [ih (fun q hq => h q (by simp [hq]))]

/-- C8: feeding any number of progress (heartbeat) lines whose arrival times
all lie within a span shorter than the configured minimum interval surfaces
at most one heartbeat event; all the others are suppressed. -/
theorem C8_heartbeat_rate_limit (w : BlenderLineInterpreter) (lines : List (String × Int))
    (hfra : ∀ p ∈ lines, strStartsWith p.1 "Fra:" = true)
    (hspan : ∀ p ∈ lines, ∀ q ∈ lines, p.2 - q.2 < w.status_msg_freq) :
    countHeartbeats (runLines w lines).2 ≤ 1 := by
  induction lines generalizing w with
  | nil => simp [runLines, countHeartbeats]
  | cons p rest ih =>
    obtain ⟨l, t⟩ := p
    by_cases hfire : w.status_msg_freq < t - w.last_report_time
    · have hsum := summarize_fra_fired w l t (hfra (l, t) (by simp)) hfire
      have hrest : runLines { w with last_report_time := t } rest =
          ({ w with last_report_time := t }, []) := by
        apply runLines_all_suppressed
        intro q hq
        refine ⟨hfra q (by simp [hq]), ?_⟩
        have := hspan q (by simp [hq]) (l, t) (by simp)
        simp only at this ⊢
        omega
      simp [runLines, hsum, hrest, countHeartbeats]
    · have hsum := summarize_fra_suppressed w l t (hfra (l, t) (by simp)) (by omega)
      have hrec := ih w (fun q hq => hfra q (by simp [hq]))
        (fun q hq r hr => hspan q (by simp [hq]) r (by simp [hr]))
      simp only [runLines]
      rw [hsum]
      simpa using hrec

/-- C8 witness: three progress lines at times 100, 101 and 102 (span 2,
interval 30) surface at most one heartbeat. -/
theorem C8_witness :
    (∀ p ∈ [("Fra:1 a", (100 : Int)), ("Fra:2 b", 101), ("Fra:3 c", 102)],
      strStartsWith p.1 "Fra:" = true) ∧
    (∀ p ∈ [("Fra:1 a", (100 : Int)), ("Fra:2 b", 101), ("Fra:3 c", 102)],
      ∀ q ∈ [("Fra:1 a", (100 : Int)), ("Fra:2 b", 101), ("Fra:3 c", 102)],
        p.2 - q.2 < (BlenderLineInterpreter.init 30 0).status_msg_freq) ∧
    countHeartbeats (runLines (BlenderLineInterpreter.init 30 0)
      [("Fra:1 a", 100), ("Fra:2 b", 101), ("Fra:3 c", 102)]).2 ≤ 1 :=
  ⟨by decide, by decide,
    C8_heartbeat_rate_limit (BlenderLineInterpreter.init 30 0)
      [("Fra:1 a", 100), ("Fra:2 b", 101), ("Fra:3 c", 102)] (by decide) (by decide)⟩

/-- C4 counterexample: on a directory containing exactly
`{3.png, 7.png, 1.png, notanumber.png}` the scan raises (`int` on the stem
`notanumber` raises `ValueError`, which nothing catches), modelled as result
`none` — it does not return the unit set `{1, 3, 7}`. -/
theorem C4_counterexample :
    get_frame_numbers_in_dir (some ["3.png", "7.png", "1.png", "notanumber.png"]) = none := by
  decide

/-- C4 (amended): a file whose stem is not a valid integer makes the scan
raise `ValueError` rather than being skipped; on the same directory without
the offending file the scan returns exactly the units `{1, 3, 7}`. -/
theorem C4_scan_behaviour :
    get_frame_numbers_in_dir (some ["3.png", "7.png", "1.png"]) = some [3, 7, 1] ∧
    (∀ n : Int, n ∈ [(3 : Int), 7, 1] ↔ (n = 1 ∨ n = 3 ∨ n = 7)) ∧
    get_frame_numbers_in_dir (some ["notanumber.png"]) = none := by
  refine ⟨by decide, ?_, by decide⟩
  intro n
  simp only [List.mem_cons, List.not_mem_nil, or_false]
  tauto

/-- The marker-scanning loop raises `ValueError` exactly when some line of
the input is a marker line whose value part does not parse as an integer,
regardless of the accumulator values. -/
theorem parseFrameLines_error_iff (lines : List String) (s e : Option Int) :
    parseFrameLines lines s e = Except.error () ↔ ∃ l ∈ lines, badMarkerLine l = true := by
  induction lines generalizing s e with
  | nil => simp [parseFrameLines]
  | cons l rest ih =>
    simp only [parseFrameLines]
    by_cases h1 : strStartsWith l "start_frame=" = true
    · rw [if_pos h1]
      cases hv : pyInt (markerValue "start_frame=" l) with
      | some v => simp [ih, badMarkerLine, isStartLine, isEndLine, h1, hv]
      | none => simp [badMarkerLine, isStartLine, h1, hv]
    · rw [if_neg h1]
      by_cases h2 : strStartsWith l "end_frame=" = true
      · rw [if_pos h2]
        cases hv : pyInt (markerValue "end_frame=" l) with
        | some v => simp [ih, badMarkerLine, isStartLine, isEndLine, h1, h2, hv]
        | none => simp [badMarkerLine, isStartLine, isEndLine, h1, h2, hv]
      · rw [if_neg h2]
        simp [ih, badMarkerLine, isStartLine, isEndLine, h1, h2]

/-- When the marker-scanning loop finishes without raising, an accumulator
slot is still `None` exactly when it was `None` initially and no line of the
input took the corresponding branch. -/
theorem parseFrameLines_none_iff (lines : List String) (s e : Option Int)
    (p : Option Int × Option Int) (h : parseFrameLines lines s e = Except.ok p) :
    (p.1 = none ↔ (s = none ∧ ∀ l ∈ lines, isStartLine l = false)) ∧
    (p.2 = none ↔ (e = none ∧ ∀ l ∈ lines, isEndLine l = false)) := by
  induction lines generalizing s e with
  | nil =>
    simp only [parseFrameLines, Except.ok.injEq] at h
    subst h
    simp
  | cons l rest ih =>
    simp only [parseFrameLines] at h
    by_cases h1 : strStartsWith l "start_frame=" = true
    · rw [if_pos h1] at h
      cases hv : pyInt (markerValue "start_frame=" l) with
      | some v =>
        rw [hv] at h
        have hrec := ih (some v) e h
        constructor
        · simp [hrec.1, isStartLine, h1]
        · simp [hrec.2, isEndLine, h1]
      | none => rw [hv] at h; cases h
    · rw [if_neg h1] at h
      by_cases h2 : strStartsWith l "end_frame=" = true
      · rw [if_pos h2] at h
        cases hv : pyInt (markerValue "end_frame=" l) with
        | some v =>
          rw [hv] at h
          have hrec := ih s (some v) h
          constructor
          · simp [hrec.1, isStartLine, h1]
          · simp [hrec.2, isEndLine, isStartLine, h1, h2]
        | none => rw [hv] at h; cases h
      · rw [if_neg h2] at h
        have hrec := ih s e h
        constructor
        · simp [hrec.1, isStartLine, h1]
        · simp [hrec.2, isEndLine, isStartLine, h1, h2]

/-- C5 (amended): range discovery takes the dedicated fatal path (diagnostic
plus `exit(1)`) exactly when the introspection process exits non-zero, or no
marker line is malformed but the start or the end marker is absent; a marker
line whose value is not a valid integer (with the process exiting zero)
instead raises an uncaught `ValueError`; in the remaining cases the frame
pair is returned. -/
theorem C5_range_discovery (exitCode : Int) (lines : List String) :
    (get_scene_frames exitCode lines = SceneFramesResult.uncaughtValueError ↔
      (exitCode = 0 ∧ ∃ l ∈ lines, badMarkerLine l = true)) ∧
    (get_scene_frames exitCode lines = SceneFramesResult.exitOne ↔
      (exitCode ≠ 0 ∨ ((∀ l ∈ lines, badMarkerLine l = false) ∧
        ((∀ l ∈ lines, isStartLine l = false) ∨ (∀ l ∈ lines, isEndLine l = false))))) := by
  unfold get_scene_frames
  by_cases hec : exitCode = 0
  · rw [if_neg (by simp [hec])]
    cases hp : parseFrameLines lines none none with
    | error u =>
      cases u
      have hbad := (parseFrameLines_error_iff lines none none).mp hp
      constructor
      · simpa [hec] using hbad
      · simp only [hec, ne_eq, not_true_eq_false, false_or]
        constructor
        · intro hx; exact SceneFramesResult.noConfusion hx
        · rintro ⟨hall, -⟩
          obtain ⟨l, hl, hbl⟩ := hbad
          rw [hall l hl] at hbl
          cases hbl
    | ok pr =>
      obtain ⟨ps, pe⟩ := pr
      have hni := parseFrameLines_none_iff lines none none (ps, pe) hp
      have hnotbad : ∀ l ∈ lines, badMarkerLine l = false := by
        intro l hl
        by_contra hb
        rw [Bool.not_eq_false] at hb
        have herr := (parseFrameLines_error_iff lines none none).mpr ⟨l, hl, hb⟩
        rw [hp] at herr
        cases herr
      cases ps with
      | none =>
        have hstart := (hni.1.mp rfl).2
        constructor
        · simp only []
          constructor
          · intro hx; exact SceneFramesResult.noConfusion hx
          · rintro ⟨-, l, hl, hbl⟩
            rw [hnotbad l hl] at hbl
            cases hbl
        · simp only []
          constructor
          · intro _; exact Or.inr ⟨hnotbad, Or.inl hstart⟩
          · intro _; trivial
      | some sv =>
        cases pe with
        | none =>
          have hend := (hni.2.mp rfl).2
          constructor
          · simp only []
            constructor
            · intro hx; exact SceneFramesResult.noConfusion hx
            · rintro ⟨-, l, hl, hbl⟩
              rw [hnotbad l hl] at hbl
              cases hbl
          · simp only []
            constructor
            · intro _; exact Or.inr ⟨hnotbad, Or.inr hend⟩
            · intro _; trivial
        | some ev =>
          have hs1 : ¬(∀ l ∈ lines, isStartLine l = false) := by
            intro hall
            have := hni.1.mpr ⟨rfl, hall⟩
            cases this
          have hs2 : ¬(∀ l ∈ lines, isEndLine l = false) := by
            intro hall
            have := hni.2.mpr ⟨rfl, hall⟩
            cases this
          constructor
          · simp only []
            constructor
            · intro hx; exact SceneFramesResult.noConfusion hx
            · rintro ⟨-, l, hl, hbl⟩
              rw [hnotbad l hl] at hbl
              cases hbl
          · simp only []
            constructor
            · intro hx; exact SceneFramesResult.noConfusion hx
            · rintro (hx | ⟨-, hx | hx⟩)
              · exact absurd hec hx
              · exact absurd hx hs1
              · exact absurd hx hs2
  · rw [if_pos hec]
    constructor
    · constructor
      · intro hx; exact SceneFramesResult.noConfusion hx
      · rintro ⟨h0, -⟩; exact absurd h0 hec
    · simp [hec]

/-- C5 counterexample: with the process exiting zero, the output lines
`start_frame=abc` and `end_frame=3` make `get_scene_frames` raise an
uncaught `ValueError` — the non-integer marker value does not reach the
dedicated fatal-discovery path. -/
theorem C5_counterexample :
    get_scene_frames 0 ["start_frame=abc", "end_frame=3"] =
      SceneFramesResult.uncaughtValueError ∧
    get_scene_frames 0 ["start_frame=abc", "end_frame=3"] ≠ SceneFramesResult.exitOne := by
  decide

end Mander
